import Mathlib

/-!
Verification of the git-diff-navigator tool (`src/gitdiff.py`): a shallow
embedding of the status classifier, directory-listing builder, history
assembler, selection pairer, diff-command builders, mark toggling and the
colorization-toggle re-render, with theorems about their specified behavior.
-/

namespace GitDiff

/-! ### pygit2 / libgit2 status flag constants (values of `pygit2.GIT_STATUS_*`) -/

def GIT_STATUS_INDEX_NEW : Nat := 1

def GIT_STATUS_INDEX_MODIFIED : Nat := 2

def GIT_STATUS_INDEX_DELETED : Nat := 4

def GIT_STATUS_WT_NEW : Nat := 128

def GIT_STATUS_WT_MODIFIED : Nat := 256

def GIT_STATUS_WT_DELETED : Nat := 512

def GIT_STATUS_IGNORED : Nat := 16384

def GIT_STATUS_CONFLICTED : Nat := 32768

/-- The status categories assigned in `FileList.set_path` (its
`repo_status` strings). -/
inductive StatusCategory where
  | conflicted
  | staged
  | wt_deleted
  | ignored
  | modified
  | untracked
  | tracked_clean
deriving DecidableEq, Repr

/-- The flag-to-category chain of `FileList.set_path` (src/gitdiff.py
lines 107-142): an if/elif cascade over the pygit2 status bits. -/
def classify (flags : Nat) : StatusCategory :=
  if flags &&& GIT_STATUS_CONFLICTED ≠ 0 then .conflicted
  else if flags &&& (GIT_STATUS_INDEX_NEW ||| GIT_STATUS_INDEX_MODIFIED |||
      GIT_STATUS_INDEX_DELETED) ≠ 0 then .staged
  else if flags &&& GIT_STATUS_WT_DELETED ≠ 0 then .wt_deleted
  else if flags &&& GIT_STATUS_IGNORED ≠ 0 then .ignored
  else if flags &&& (GIT_STATUS_WT_MODIFIED ||| GIT_STATUS_INDEX_MODIFIED) ≠ 0 then .modified
  else if flags &&& GIT_STATUS_WT_NEW ≠ 0 then .untracked
  else .tracked_clean

/-- The surrounding repo/relative-path dispatch of `FileList.set_path`
(src/gitdiff.py lines 94-155): classification only runs when a repository
is available and `os.path.relpath` gave a truthy path not starting with
`".."`; otherwise the status is `untracked`.  `rel = Option.none` models a
failed `relpath` call. -/
def classifyPath (repoAvailable : Bool) (rel : Option String) (flags : Nat) : StatusCategory :=
  if repoAvailable then
    match rel with
    | Option.some r =>
        if ¬r.isEmpty ∧ ¬r.startsWith ".." then classify flags
        else .untracked
    | Option.none => .untracked
  else .untracked

/-! ### Directory listing (`FileList.set_path`, src/gitdiff.py lines 76-92) -/

/-- The names shown by `FileList.set_path`: a `".."` parent entry unless the
directory holds a `.git` subdirectory, then the sorted `os.listdir` entries
with any entry named `".git"` skipped. -/
def buildListing (hasGitSubdir : Bool) (entries : List String) : List String :=
  (if hasGitSubdir then [] else [".."]) ++
    (entries.mergeSort (fun a b => a ≤ b)).filter (fun n => n ≠ ".git")

/-! ### History assembly (`FileList.on_key`, src/gitdiff.py lines 411-544) -/

/-- Combined index-change mask used when building pseudo-entries
(src/gitdiff.py lines 426-430). -/
def idxFlagsMask : Nat :=
  GIT_STATUS_INDEX_NEW ||| GIT_STATUS_INDEX_MODIFIED ||| GIT_STATUS_INDEX_DELETED

/-- Combined working-tree-change mask used when building pseudo-entries
(src/gitdiff.py lines 431-435). -/
def wtFlagsMask : Nat :=
  GIT_STATUS_WT_NEW ||| GIT_STATUS_WT_MODIFIED ||| GIT_STATUS_WT_DELETED

/-- The `pseudo_entries` list of `FileList.on_key` (src/gitdiff.py lines
414-453): `["MODS", "STAGED"]`, `["STAGED"]`, `["MODS"]` or `[]` depending on
which status bits are set, and `[]` whenever no repository is available or the
relative path is missing or outside the repository. -/
def pseudoEntries (repoAvailable : Bool) (rel : Option String) (flags : Nat) : List String :=
  if repoAvailable then
    match rel with
    | Option.some r =>
        if ¬r.isEmpty ∧ ¬r.startsWith ".." then
          if flags &&& wtFlagsMask ≠ 0 ∧ flags &&& idxFlagsMask ≠ 0 then ["MODS", "STAGED"]
          else if flags &&& idxFlagsMask ≠ 0 then ["STAGED"]
          else if flags &&& wtFlagsMask ≠ 0 then ["MODS"]
          else []
        else []
    | Option.none => []
  else []

/-- An item appended to the History `ListView`: a pseudo-entry (its `_hash`
is the tag `"MODS"` or `"STAGED"`), a commit line from `git log`, or the
single "no history" sentinel line. -/
inductive HistEntry where
  | pseudo (kind : String)
  | commit (line : String)
  | sentinel (msg : String)
deriving DecidableEq, Repr

/-- Is a history item one of the `Working` pseudo-entries? -/
def HistEntry.isWorking : HistEntry → Bool
  | .pseudo _ => true
  | _ => false

/-- Is a history item a real commit line? -/
def HistEntry.isCommit : HistEntry → Bool
  | .commit _ => true
  | _ => false

/-- `str.splitlines` for the LF-separated output of `git log`. -/
def splitLines (s : String) : List String := s.splitOn "\n"

/-- The population of the History list in `FileList.on_key` (src/gitdiff.py
lines 411-544): when the stripped `git log` output is non-empty, the
pseudo-entries are appended first and then one commit item per output line;
when it is empty, the single sentinel item is appended — the pseudo-entry
branch is only reached inside `if out:`. -/
def assembleHistory (out : String) (pseudo : List String) (fname : String) : List HistEntry :=
  if ¬out.isEmpty then
    pseudo.map HistEntry.pseudo ++ (splitLines out).map HistEntry.commit
  else [HistEntry.sentinel ("No git history for " ++ fname)]

/-- History assembly with the pseudo-entry computation inlined, as
`FileList.on_key` performs it. -/
def assembleHistoryFor (repoAvailable : Bool) (rel : Option String) (flags : Nat)
    (out : String) (fname : String) : List HistEntry :=
  assembleHistory out (pseudoEntries repoAvailable rel flags) fname

/-! ### Selection pairing (`HistoryList.on_key`, "right", src/gitdiff.py
lines 973-1037) -/

/-- The index-pair selection of `HistoryList.on_key` for the right key:
given the number of history items, the highlighted index `idx` and the index
of the checked item when one exists, return `Option.some (older, newer)` or
`Option.none` when the transition is refused.  With no checked item (or the
checked item highlighted), the pair is `(idx + 1, idx)` unless `idx` is the
last index; with a distinct checked item `c`, the pair is
`(max idx c, min idx c)`. -/
def selectPair (len idx : Nat) (checked : Option Nat) : Option (Nat × Nat) :=
  if len = 0 then Option.none
  else
    match checked with
    | Option.none =>
        if idx ≥ len - 1 then Option.none else Option.some (idx + 1, idx)
    | Option.some c =>
        if c = idx then
          if idx ≥ len - 1 then Option.none else Option.some (idx + 1, idx)
        else Option.some (max idx c, min idx c)

/-! ### Diff command builders -/

/-- `_is_pseudo` in `HistoryList.on_key` (src/gitdiff.py lines 1076-1077). -/
def isPseudoHash (h : Option String) : Bool :=
  h == Option.some "STAGED" || h == Option.some "MODS"

/-- Python truthiness of an optional string: `None` and `""` are falsy. -/
def truthy (h : Option String) : Bool :=
  match h with
  | Option.some s => ¬s.isEmpty
  | Option.none => false

/-- The string carried by a truthy optional hash. -/
def getStr (h : Option String) : String := h.getD ""

/-- `_build_diff_cmd` in `HistoryList.on_key` (src/gitdiff.py lines
1079-1114), used when a pair is first selected.  `prev` is the older side,
`curr` the newer side.  The Python if-chain returns at the first match and
falls through to the two-commit case, then to the working-tree fallback. -/
def buildDiffCmd (prev curr : Option String) (fname : String) : List String :=
  if isPseudoHash prev ∨ isPseudoHash curr then
    if (prev = Option.some "STAGED" ∧ curr = Option.some "MODS") ∨
        (prev = Option.some "MODS" ∧ curr = Option.some "STAGED") then
      ["git", "diff", "--", fname]
    else if curr = Option.some "MODS" ∧ truthy prev ∧ ¬isPseudoHash prev then
      ["git", "diff", getStr prev, "--", fname]
    else if prev = Option.some "MODS" ∧ truthy curr ∧ ¬isPseudoHash curr then
      ["git", "diff", getStr curr, "--", fname]
    else if curr = Option.some "STAGED" ∧ truthy prev ∧ ¬isPseudoHash prev then
      ["git", "diff", "--cached", getStr prev, "--", fname]
    else if prev = Option.some "STAGED" ∧ truthy curr ∧ ¬isPseudoHash curr then
      ["git", "diff", "--cached", getStr curr, "--", fname]
    else if curr = Option.some "STAGED" ∧ prev = Option.none then
      ["git", "diff", "--cached", "--", fname]
    else if curr = Option.some "MODS" ∧ prev = Option.none then
      ["git", "diff", "--", fname]
    else if truthy prev ∧ truthy curr then
      ["git", "diff", getStr prev, getStr curr, "--", fname]
    else ["git", "diff", "--", fname]
  else if truthy prev ∧ truthy curr then
    ["git", "diff", getStr prev, getStr curr, "--", fname]
  else ["git", "diff", "--", fname]

/-- `_build_diff_cmd` in `DiffList.on_key` (src/gitdiff.py lines 1281-1299),
used when the colorization toggle re-renders the cached pair. -/
def buildDiffCmdToggle (prev curr : Option String) (fname : String) : List String :=
  if prev = Option.some "STAGED" ∧ curr = Option.some "MODS" then
    ["git", "diff", "HEAD", "--", fname]
  else if curr = Option.some "MODS" ∧ prev.isSome then
    ["git", "diff", getStr prev, "--", fname]
  else if curr = Option.some "STAGED" ∧ prev.isSome then
    ["git", "diff", "--cached", getStr prev, "--", fname]
  else if curr = Option.some "STAGED" ∧ prev = Option.none then
    ["git", "diff", "--cached", "--", fname]
  else if curr = Option.some "MODS" ∧ prev = Option.none then
    ["git", "diff", "--", fname]
  else if truthy prev ∧ truthy curr then
    ["git", "diff", getStr prev, getStr curr, "--", fname]
  else ["git", "diff", "--", fname]

/-! ### Mark toggling (`HistoryList.toggle_check_current`, src/gitdiff.py
lines 693-804) -/

/-- The `for node in nodes: if node._checked: break` search for the first
checked item (src/gitdiff.py lines 742-746). -/
def findChecked : List Bool → Option Nat
  | [] => Option.none
  | b :: rest => if b then Option.some 0 else (findChecked rest).map (· + 1)

/-- `HistoryList.toggle_check_current` on the `_checked` flags of the
history items: with `idx` out of range nothing changes; when the first
checked item is the target it is unchecked; otherwise any previously checked
item is cleared and the target is checked. -/
def toggleCheck (l : List Bool) (idx : Nat) : List Bool :=
  if idx < l.length then
    match findChecked l with
    | Option.some p =>
        if p = idx then l.set idx false
        else (l.set p false).set idx true
    | Option.none => l.set idx true
  else l

/-! ### Colorization toggle re-render (`DiffList.on_key`, "c", src/gitdiff.py
lines 1256-1352) -/

/-- The Diff pane state touched by the colorization toggle: the flag, the
scroll offset and highlighted index, the rendered lines, and the cached last
diff request (`current_prev_sha`, `current_commit_sha`,
`current_diff_file`). -/
structure DiffPane where
  colorize : Bool
  scroll_y : Int
  index : Option Nat
  lines : List String
  cached_prev : Option String
  cached_curr : Option String
  cached_file : Option String
deriving DecidableEq, Repr

/-- The text of the re-rendered Diff pane: the `Comparing:` header, then the
diff output lines, or the `No diff` placeholder when the output is empty
(src/gitdiff.py lines 1305-1331; colorization changes only styling, not
text). -/
def renderedLines (prevh currh : String) (diffOut : String) : List String :=
  ("Comparing: " ++ prevh ++ ".." ++ currh) ::
    (if ¬diffOut.isEmpty then splitLines diffOut
     else ["No diff between " ++ prevh ++ ".." ++ currh])

/-- The `c` key handler of `DiffList.on_key` (src/gitdiff.py lines
1256-1352): flip the flag; when all three cached values are truthy, save the
scroll offset and index, rebuild the command with `buildDiffCmdToggle`, run
the diff (modelled by the oracle `diffQuery`), clear and repopulate the list
(clearing resets index and scroll), then restore the saved scroll offset and
— when it was not `None` — the saved index. -/
def toggleColorize (diffQuery : List String → String) (s : DiffPane) : DiffPane :=
  let s1 : DiffPane := { s with colorize := ¬s.colorize }
  if truthy s1.cached_curr ∧ truthy s1.cached_prev ∧ truthy s1.cached_file then
    let savedScroll := s1.scroll_y
    let savedIndex := s1.index
    let cmd := buildDiffCmdToggle s1.cached_prev s1.cached_curr (getStr s1.cached_file)
    let out := diffQuery cmd
    let s2 : DiffPane := { s1 with lines := [], index := Option.none, scroll_y := 0 }
    let s3 : DiffPane :=
      { s2 with lines := renderedLines (getStr s1.cached_prev) (getStr s1.cached_curr) out }
    { s3 with
      scroll_y := savedScroll
      index := match savedIndex with
        | Option.none => s3.index
        | Option.some i => Option.some i }
  else s1

/-! ### Helper lemmas -/

lemma pseudoEntries_cases (repoAvailable : Bool) (rel : Option String) (flags : Nat) :
    pseudoEntries repoAvailable rel flags = ["MODS", "STAGED"]
  ∨ pseudoEntries repoAvailable rel flags = ["STAGED"]
  ∨ pseudoEntries repoAvailable rel flags = ["MODS"]
  ∨ pseudoEntries repoAvailable rel flags = [] := by
  unfold pseudoEntries
  cases repoAvailable
  · simp
  · cases rel
    · simp
    · simp only
      split_ifs <;> simp

lemma pseudo_precedes_commit (ps lines : List String) (i j : Nat)
    (hi : i < (ps.map HistEntry.pseudo ++ lines.map HistEntry.commit).length)
    (hj : j < (ps.map HistEntry.pseudo ++ lines.map HistEntry.commit).length)
    (hci : ((ps.map HistEntry.pseudo ++ lines.map HistEntry.commit).get ⟨i, hi⟩).isCommit
      = true)
    (hwj : ((ps.map HistEntry.pseudo ++ lines.map HistEntry.commit).get ⟨j, hj⟩).isWorking
      = true) :
    j < i := by
  have hpi : ¬i < ps.length := by
    intro hip
    have hip2 : i < (ps.map HistEntry.pseudo).length := by simpa using hip
    rw [List.get_eq_getElem, List.getElem_append_left hip2, List.getElem_map] at hci
    simp [HistEntry.isCommit] at hci
  by_cases hjp : j < ps.length
  · omega
  · exfalso
    have hjp2 : (ps.map HistEntry.pseudo).length ≤ j := by simpa using hjp
    rw [List.get_eq_getElem, List.getElem_append_right hjp2, List.getElem_map] at hwj
    simp [HistEntry.isWorking] at hwj

lemma count_pseudo_append (ps lines : List String) (k : String) :
    (ps.map HistEntry.pseudo ++ lines.map HistEntry.commit).count (HistEntry.pseudo k)
      = ps.count k := by
  rw [List.count_append]
  have h1 : (lines.map HistEntry.commit).count (HistEntry.pseudo k) = 0 :=
    List.count_eq_zero.mpr (by simp)
  have h2 : (ps.map HistEntry.pseudo).count (HistEntry.pseudo k) = ps.count k :=
    List.count_map_of_injective _ _ (fun a b hab => by injection hab) _
  omega

lemma count_true_zero_eq_replicate (l : List Bool) (h : l.count true = 0) :
    l = List.replicate l.length false := by
  induction l with
  | nil => rfl
  | cons b rest ih =>
      cases b
      · simp only [List.count_cons] at h
        have hr : rest.count true = 0 := by omega
        rw [List.length_cons, List.replicate_succ]
        exact congrArg (false :: ·) (ih hr)
      · simp [List.count_cons] at h

lemma findChecked_char (l : List Bool) (h : l.count true ≤ 1) :
    (findChecked l = Option.none ∧ l = List.replicate l.length false)
  ∨ (∃ p, findChecked l = Option.some p ∧ p < l.length ∧
      l = (List.replicate l.length false).set p true) := by
  induction l with
  | nil => exact Or.inl ⟨rfl, rfl⟩
  | cons b rest ih =>
      cases b
      · have hr : rest.count true ≤ 1 := by
          simp only [List.count_cons] at h
          omega
        rcases ih hr with ⟨h1, h2⟩ | ⟨p, h1, h2, h3⟩
        · refine Or.inl ⟨by simp [findChecked, h1], ?_⟩
          rw [List.length_cons, List.replicate_succ]
          exact congrArg (false :: ·) h2
        · refine Or.inr ⟨p + 1, by simp [findChecked, h1], by simp; omega, ?_⟩
          rw [List.length_cons, List.replicate_succ, List.set_cons_succ]
          exact congrArg (false :: ·) h3
      · have hr : rest.count true = 0 := by
          simp only [List.count_cons] at h
          simp at h
          omega
        refine Or.inr ⟨0, by simp [findChecked], by simp, ?_⟩
        rw [List.length_cons, List.replicate_succ, List.set_cons_zero]
        exact congrArg (true :: ·) (count_true_zero_eq_replicate rest hr)

lemma set_replicate_self (n i : Nat) (a : Bool) :
    (List.replicate n a).set i a = List.replicate n a := by
  induction n generalizing i with
  | zero => rfl
  | succ n ih =>
      cases i <;> simp [List.replicate_succ, ih]

lemma count_replicate_set (n idx : Nat) (h : idx < n) :
    ((List.replicate n false).set idx true).count true = 1 := by
  induction n generalizing idx with
  | zero => omega
  | succ n ih =>
      cases idx with
      | zero =>
          simp [List.replicate_succ, List.count_cons, List.count_replicate]
      | succ k =>
          have hk := ih k (Nat.lt_of_succ_lt_succ h)
          simp [List.replicate_succ, List.count_cons, hk]

/-! ### Claim theorems -/

/-- Claim C1: with no mark, or the marked index equal to the highlighted
index, the selected pair is `(older = highlighted + 1, newer = highlighted)`
and the transition is refused exactly when the highlighted index is the last
one; with a distinct marked index, the pair is
`(older = max, newer = min)` of the two indices, independent of which of the
two was highlighted versus marked. -/
theorem selectPair_rule (len idx m : Nat) (hidx : idx < len) (hm : m < len) :
    (selectPair len idx Option.none =
        if idx = len - 1 then Option.none else Option.some (idx + 1, idx))
  ∧ (selectPair len idx (Option.some idx) =
        if idx = len - 1 then Option.none else Option.some (idx + 1, idx))
  ∧ (m ≠ idx →
        selectPair len idx (Option.some m) = Option.some (max idx m, min idx m)
      ∧ selectPair len m (Option.some idx) = Option.some (max idx m, min idx m)) := by
  have h0 : ¬len = 0 := by omega
  have hiff : (idx ≥ len - 1) ↔ idx = len - 1 := by omega
  refine ⟨by simp [selectPair, h0, hiff], by simp [selectPair, h0, hiff], ?_⟩
  intro hne
  have hne2 : ¬(idx = m) := fun hh => hne hh.symm
  constructor
  · simp [selectPair, h0, hne]
  · simp [selectPair, h0, hne2, Nat.max_comm, Nat.min_comm]

/-- Witness for C1 at `len = 4`, `idx = 1`, `m = 3`. -/
theorem selectPair_rule_witness :
    (selectPair 4 1 Option.none =
        if 1 = 4 - 1 then Option.none else Option.some (2, 1))
  ∧ (selectPair 4 1 (Option.some 1) =
        if 1 = 4 - 1 then Option.none else Option.some (2, 1))
  ∧ (3 ≠ 1 →
        selectPair 4 1 (Option.some 3) = Option.some (max 1 3, min 1 3)
      ∧ selectPair 4 3 (Option.some 1) = Option.some (max 1 3, min 1 3)) :=
  selectPair_rule 4 1 3 (by decide) (by decide)

/-- Claim C2: `classify` returns exactly one category following the fixed
precedence Conflicted > Staged > WorkingTreeDeleted > Ignored > Modified >
Untracked > TrackedClean (first matching flag wins); a path flagged both
worktree-modified and conflicted classifies as conflicted, and a flag set
matching none of the listed bits classifies as tracked-clean. -/
theorem classify_precedence (flags : Nat) :
    (flags &&& GIT_STATUS_CONFLICTED ≠ 0 → classify flags = StatusCategory.conflicted)
  ∧ (flags &&& GIT_STATUS_CONFLICTED = 0 →
      flags &&& (GIT_STATUS_INDEX_NEW ||| GIT_STATUS_INDEX_MODIFIED |||
        GIT_STATUS_INDEX_DELETED) ≠ 0 →
      classify flags = StatusCategory.staged)
  ∧ (flags &&& GIT_STATUS_CONFLICTED = 0 →
      flags &&& (GIT_STATUS_INDEX_NEW ||| GIT_STATUS_INDEX_MODIFIED |||
        GIT_STATUS_INDEX_DELETED) = 0 →
      flags &&& GIT_STATUS_WT_DELETED ≠ 0 →
      classify flags = StatusCategory.wt_deleted)
  ∧ (flags &&& GIT_STATUS_CONFLICTED = 0 →
      flags &&& (GIT_STATUS_INDEX_NEW ||| GIT_STATUS_INDEX_MODIFIED |||
        GIT_STATUS_INDEX_DELETED) = 0 →
      flags &&& GIT_STATUS_WT_DELETED = 0 →
      flags &&& GIT_STATUS_IGNORED ≠ 0 →
      classify flags = StatusCategory.ignored)
  ∧ (flags &&& GIT_STATUS_CONFLICTED = 0 →
      flags &&& (GIT_STATUS_INDEX_NEW ||| GIT_STATUS_INDEX_MODIFIED |||
        GIT_STATUS_INDEX_DELETED) = 0 →
      flags &&& GIT_STATUS_WT_DELETED = 0 →
      flags &&& GIT_STATUS_IGNORED = 0 →
      flags &&& (GIT_STATUS_WT_MODIFIED ||| GIT_STATUS_INDEX_MODIFIED) ≠ 0 →
      classify flags = StatusCategory.modified)
  ∧ (flags &&& GIT_STATUS_CONFLICTED = 0 →
      flags &&& (GIT_STATUS_INDEX_NEW ||| GIT_STATUS_INDEX_MODIFIED |||
        GIT_STATUS_INDEX_DELETED) = 0 →
      flags &&& GIT_STATUS_WT_DELETED = 0 →
      flags &&& GIT_STATUS_IGNORED = 0 →
      flags &&& (GIT_STATUS_WT_MODIFIED ||| GIT_STATUS_INDEX_MODIFIED) = 0 →
      flags &&& GIT_STATUS_WT_NEW ≠ 0 →
      classify flags = StatusCategory.untracked)
  ∧ (flags &&& GIT_STATUS_CONFLICTED = 0 →
      flags &&& (GIT_STATUS_INDEX_NEW ||| GIT_STATUS_INDEX_MODIFIED |||
        GIT_STATUS_INDEX_DELETED) = 0 →
      flags &&& GIT_STATUS_WT_DELETED = 0 →
      flags &&& GIT_STATUS_IGNORED = 0 →
      flags &&& (GIT_STATUS_WT_MODIFIED ||| GIT_STATUS_INDEX_MODIFIED) = 0 →
      flags &&& GIT_STATUS_WT_NEW = 0 →
      classify flags = StatusCategory.tracked_clean)
  ∧ classify (GIT_STATUS_WT_MODIFIED ||| GIT_STATUS_CONFLICTED)
      = StatusCategory.conflicted := by
  refine ⟨?_, ?_, ?_, ?_, ?_, ?_, ?_, by decide⟩ <;>
    · intros
      simp only [classify, *]
      simp [*]

/-- Claim C3: in every assembled history list, every pseudo-entry precedes
every commit entry; at most one `MODS` and at most one `STAGED` pseudo-entry
exist; and when both appear, the list starts `MODS` then `STAGED`. -/
theorem history_order_invariant (repoAvailable : Bool) (rel : Option String)
    (flags : Nat) (out fname : String) (hist : List HistEntry)
    (hhist : hist = assembleHistoryFor repoAvailable rel flags out fname) :
    (∀ (i j : Nat) (hi : i < hist.length) (hj : j < hist.length),
        (hist.get ⟨i, hi⟩).isCommit = true → (hist.get ⟨j, hj⟩).isWorking = true → j < i)
  ∧ hist.count (HistEntry.pseudo "MODS") ≤ 1
  ∧ hist.count (HistEntry.pseudo "STAGED") ≤ 1
  ∧ (HistEntry.pseudo "MODS" ∈ hist → HistEntry.pseudo "STAGED" ∈ hist →
      ∃ rest, hist = HistEntry.pseudo "MODS" :: HistEntry.pseudo "STAGED" :: rest) := by
  by_cases hE : out.isEmpty = true
  · have hs : hist = [HistEntry.sentinel ("No git history for " ++ fname)] := by
      rw [hhist]; simp [assembleHistoryFor, assembleHistory, hE]
    subst hs
    refine ⟨?_, by simp, by simp, by simp⟩
    intro i j hi hj hci hwj
    simp only [List.length_singleton] at hi hj
    interval_cases i
    simp [HistEntry.isCommit] at hci
  · have hs : hist = (pseudoEntries repoAvailable rel flags).map HistEntry.pseudo ++
        (splitLines out).map HistEntry.commit := by
      rw [hhist]; simp [assembleHistoryFor, assembleHistory, hE]
    subst hs
    refine ⟨fun i j hi hj hci hwj => pseudo_precedes_commit _ _ i j hi hj hci hwj, ?_, ?_, ?_⟩
    · rw [count_pseudo_append]
      rcases pseudoEntries_cases repoAvailable rel flags with hps | hps | hps | hps <;>
        simp [hps]
    · rw [count_pseudo_append]
      rcases pseudoEntries_cases repoAvailable rel flags with hps | hps | hps | hps <;>
        simp [hps]
    · intro hM hS
      have hM2 : "MODS" ∈ pseudoEntries repoAvailable rel flags := by
        simpa using hM
      have hS2 : "STAGED" ∈ pseudoEntries repoAvailable rel flags := by
        simpa using hS
      rcases pseudoEntries_cases repoAvailable rel flags with hps | hps | hps | hps
      · rw [hps]
        exact ⟨(splitLines out).map HistEntry.commit, by simp⟩
      · rw [hps] at hM2
        simp at hM2
      · rw [hps] at hS2
        simp at hS2
      · rw [hps] at hM2
        simp at hM2

/-- Witness for C3 at a file with both staged and working-tree changes
(flags 258 = WT_MODIFIED ||| INDEX_MODIFIED) and a two-line commit log. -/
theorem history_order_invariant_witness :
    (∀ (i j : Nat)
        (hi : i < (assembleHistoryFor true (Option.some "f") 258 "a\nb" "f").length)
        (hj : j < (assembleHistoryFor true (Option.some "f") 258 "a\nb" "f").length),
        ((assembleHistoryFor true (Option.some "f") 258 "a\nb" "f").get ⟨i, hi⟩).isCommit
          = true →
        ((assembleHistoryFor true (Option.some "f") 258 "a\nb" "f").get ⟨j, hj⟩).isWorking
          = true → j < i)
  ∧ (assembleHistoryFor true (Option.some "f") 258 "a\nb" "f").count
      (HistEntry.pseudo "MODS") ≤ 1
  ∧ (assembleHistoryFor true (Option.some "f") 258 "a\nb" "f").count
      (HistEntry.pseudo "STAGED") ≤ 1
  ∧ (HistEntry.pseudo "MODS" ∈ assembleHistoryFor true (Option.some "f") 258 "a\nb" "f" →
      HistEntry.pseudo "STAGED" ∈ assembleHistoryFor true (Option.some "f") 258 "a\nb" "f" →
      ∃ rest, assembleHistoryFor true (Option.some "f") 258 "a\nb" "f"
        = HistEntry.pseudo "MODS" :: HistEntry.pseudo "STAGED" :: rest) :=
  history_order_invariant true (Option.some "f") 258 "a\nb" "f" _ rfl

/-- Claim C4 counterexample: a file with working-tree modifications
(`MODS` pseudo-entry applies) but an empty commit log is given the "no
history" sentinel, not its pseudo-entry. -/
theorem assembleHistory_empty_log_cex :
    pseudoEntries true (Option.some "f") GIT_STATUS_WT_MODIFIED = ["MODS"]
  ∧ assembleHistoryFor true (Option.some "f") GIT_STATUS_WT_MODIFIED "" "f"
      = [HistEntry.sentinel "No git history for f"]
  ∧ HistEntry.pseudo "MODS" ∉
      assembleHistoryFor true (Option.some "f") GIT_STATUS_WT_MODIFIED "" "f" := by
  refine ⟨by decide, by decide, by decide⟩

/-- Claim C4 as amended: the applicable pseudo-entries are prepended ahead
of the commit list exactly when the commit query returned entries; the "no
history" sentinel is produced exactly when the commit query returns no
entries, regardless of whether a pseudo-entry applies. -/
theorem assembleHistory_sentinel_iff (repoAvailable : Bool) (rel : Option String)
    (flags : Nat) (out fname : String) :
    ((∃ m, HistEntry.sentinel m ∈ assembleHistoryFor repoAvailable rel flags out fname) ↔
      out.isEmpty = true)
  ∧ (¬out.isEmpty = true →
      assembleHistoryFor repoAvailable rel flags out fname =
        (pseudoEntries repoAvailable rel flags).map HistEntry.pseudo ++
          (splitLines out).map HistEntry.commit) := by
  by_cases hE : out.isEmpty = true <;>
    simp [assembleHistoryFor, assembleHistory, hE]

/-- Claim C5: the diff-command builder of the history pane is
order-independent for every rule involving a pseudo reference: staged vs
working tree yields the bare index-vs-worktree invocation, a commit `h` vs
working tree yields `git diff h -- f`, and a commit `h` vs the index yields
`git diff --cached h -- f`, in either argument order. -/
theorem buildDiffCmd_order_indep (h f : String)
    (hne : h ≠ "") (hs : h ≠ "STAGED") (hm : h ≠ "MODS") :
    buildDiffCmd (Option.some "STAGED") (Option.some "MODS") f = ["git", "diff", "--", f]
  ∧ buildDiffCmd (Option.some "MODS") (Option.some "STAGED") f = ["git", "diff", "--", f]
  ∧ buildDiffCmd (Option.some h) (Option.some "MODS") f = ["git", "diff", h, "--", f]
  ∧ buildDiffCmd (Option.some "MODS") (Option.some h) f = ["git", "diff", h, "--", f]
  ∧ buildDiffCmd (Option.some h) (Option.some "STAGED") f
      = ["git", "diff", "--cached", h, "--", f]
  ∧ buildDiffCmd (Option.some "STAGED") (Option.some h) f
      = ["git", "diff", "--cached", h, "--", f] := by
  have hE : h.isEmpty = false := by
    cases h0 : h.isEmpty
    · rfl
    · exact absurd ((String.isEmpty_iff h).mp h0) hne
  refine ⟨?_, ?_, ?_, ?_, ?_, ?_⟩ <;>
    simp [buildDiffCmd, isPseudoHash, truthy, getStr, hE, hs, hm]

/-- Witness for C5 at `h = "abc"`, `f = "f"`. -/
theorem buildDiffCmd_order_indep_witness :
    buildDiffCmd (Option.some "STAGED") (Option.some "MODS") "f" = ["git", "diff", "--", "f"]
  ∧ buildDiffCmd (Option.some "MODS") (Option.some "STAGED") "f" = ["git", "diff", "--", "f"]
  ∧ buildDiffCmd (Option.some "abc") (Option.some "MODS") "f"
      = ["git", "diff", "abc", "--", "f"]
  ∧ buildDiffCmd (Option.some "MODS") (Option.some "abc") "f"
      = ["git", "diff", "abc", "--", "f"]
  ∧ buildDiffCmd (Option.some "abc") (Option.some "STAGED") "f"
      = ["git", "diff", "--cached", "abc", "--", "f"]
  ∧ buildDiffCmd (Option.some "STAGED") (Option.some "abc") "f"
      = ["git", "diff", "--cached", "abc", "--", "f"] :=
  buildDiffCmd_order_indep "abc" "f" (by decide) (by decide) (by decide)

/-- Claim C6: the two diff-command builders disagree on the cached pair
`(older = STAGED, newer = MODS)` — the history pane builds the bare
index-vs-worktree invocation while the toggle re-render builds
`git diff HEAD -- f` — so re-issuing the cached request is not an identical
invocation, contrary to the same-logic comment on the re-render builder. -/
theorem buildDiffCmd_toggle_mismatch :
    buildDiffCmd (Option.some "STAGED") (Option.some "MODS") "f" = ["git", "diff", "--", "f"]
  ∧ buildDiffCmdToggle (Option.some "STAGED") (Option.some "MODS") "f"
      = ["git", "diff", "HEAD", "--", "f"]
  ∧ buildDiffCmd (Option.some "STAGED") (Option.some "MODS") "f"
      ≠ buildDiffCmdToggle (Option.some "STAGED") (Option.some "MODS") "f" := by
  refine ⟨by decide, by decide, by decide⟩

/-- Claim C7: toggling the mark keeps at most one entry marked: marking the
already-marked entry unmarks everything, and marking an unmarked entry
leaves exactly that entry marked. -/
theorem toggleCheck_single_mark (l : List Bool) (idx : Nat)
    (hidx : idx < l.length) (hinv : l.count true ≤ 1) :
    (toggleCheck l idx).count true ≤ 1
  ∧ (l[idx]? = Option.some true → toggleCheck l idx = List.replicate l.length false)
  ∧ (l[idx]? = Option.some false →
      toggleCheck l idx = (List.replicate l.length false).set idx true) := by
  rcases findChecked_char l hinv with ⟨h1, h2⟩ | ⟨p, h1, hp, h2⟩
  · have hget : l[idx]? = Option.some false := by
      conv_lhs => rw [h2]
      simp [List.getElem?_replicate, hidx]
    have hres : toggleCheck l idx = (List.replicate l.length false).set idx true := by
      simp only [toggleCheck, hidx, if_pos, h1]
      conv_lhs => rw [h2]
    refine ⟨?_, ?_, fun _ => hres⟩
    · rw [hres, count_replicate_set _ _ hidx]
    · intro hcontra
      rw [hget] at hcontra
      simp at hcontra
  · by_cases hpi : p = idx
    · subst hpi
      have hget : l[p]? = Option.some true := by
        conv_lhs => rw [h2]
        rw [List.getElem?_set_eq_of_lt]
        simpa using hidx
      have hres : toggleCheck l p = List.replicate l.length false := by
        simp only [toggleCheck, hidx, if_pos, h1, if_pos rfl]
        conv_lhs => rw [h2]
        rw [List.set_set, set_replicate_self]
      refine ⟨?_, fun _ => hres, ?_⟩
      · rw [hres]
        simp [List.count_replicate]
      · intro hcontra
        rw [hget] at hcontra
        simp at hcontra
    · have hget : l[idx]? = Option.some false := by
        conv_lhs => rw [h2]
        rw [List.getElem?_set_ne hpi]
        simp [List.getElem?_replicate, hidx]
      have hres : toggleCheck l idx = (List.replicate l.length false).set idx true := by
        simp only [toggleCheck, hidx, if_pos, h1]
        rw [if_neg hpi]
        conv_lhs => rw [h2]
        rw [List.set_set, set_replicate_self]
      refine ⟨?_, ?_, fun _ => hres⟩
      · rw [hres, count_replicate_set _ _ hidx]
      · intro hcontra
        rw [hget] at hcontra
        simp at hcontra

/-- Witness for C7: toggling index 0 of `[false, true, false]` (entry 1 is
marked, entry 0 is not). -/
theorem toggleCheck_single_mark_witness :
    (toggleCheck [false, true, false] 0).count true ≤ 1
  ∧ ([false, true, false][0]? = Option.some true →
      toggleCheck [false, true, false] 0 = List.replicate 3 false)
  ∧ ([false, true, false][0]? = Option.some false →
      toggleCheck [false, true, false] 0 = (List.replicate 3 false).set 0 true) :=
  toggleCheck_single_mark [false, true, false] 0 (by decide) (by decide)

/-- Claim C8: the colorization toggle re-renders the diff from the cached
request while preserving the scroll offset, the selection index and the
cached request itself; when the cache is complete, the new pane text is the
re-derived rendering of the cached pair. -/
theorem toggleColorize_frame (diffQuery : List String → String) (s : DiffPane) :
    (toggleColorize diffQuery s).scroll_y = s.scroll_y
  ∧ (toggleColorize diffQuery s).index = s.index
  ∧ (toggleColorize diffQuery s).cached_prev = s.cached_prev
  ∧ (toggleColorize diffQuery s).cached_curr = s.cached_curr
  ∧ (toggleColorize diffQuery s).cached_file = s.cached_file
  ∧ (toggleColorize diffQuery s).colorize = ¬s.colorize
  ∧ ((truthy s.cached_curr ∧ truthy s.cached_prev ∧ truthy s.cached_file) →
      (toggleColorize diffQuery s).lines =
        renderedLines (getStr s.cached_prev) (getStr s.cached_curr)
          (diffQuery (buildDiffCmdToggle s.cached_prev s.cached_curr
            (getStr s.cached_file)))) := by
  by_cases hc : truthy s.cached_curr ∧ truthy s.cached_prev ∧ truthy s.cached_file
  · cases hi : s.index <;>
      simp [toggleColorize, hc, hi]
  · simp [toggleColorize, hc]

/-- Claim C9: with no repository available every file classifies as
untracked, and with a repository available every file whose relative path
escapes the repository root (starts with `".."`) classifies as untracked,
regardless of status flags. -/
theorem classifyPath_no_repo_or_outside (rel : Option String) (flags : Nat) :
    classifyPath false rel flags = StatusCategory.untracked
  ∧ (∀ r : String, r.startsWith ".." → classifyPath true (Option.some r) flags
      = StatusCategory.untracked) := by
  constructor
  · simp [classifyPath]
  · intro r h
    simp [classifyPath, h]

/-- Claim C10: a directory listing never shows a `.git` entry, and it offers
the `..` parent entry exactly when the listed directory has no `.git`
subdirectory. -/
theorem listing_git_and_parent (hasGitSubdir : Bool) (entries : List String)
    (hnp : ".." ∉ entries) :
    ".git" ∉ buildListing hasGitSubdir entries
  ∧ (".." ∈ buildListing hasGitSubdir entries ↔ hasGitSubdir = false) := by
  cases hasGitSubdir <;>
    simp [buildListing, List.mem_filter, List.mem_mergeSort, hnp]

/-- Witness for C10 at a repository root and a listing holding `.git`. -/
theorem listing_git_and_parent_witness :
    ".git" ∉ buildListing false [".git", "a"]
  ∧ (".." ∈ buildListing false [".git", "a"] ↔ false = false) :=
  listing_git_and_parent false [".git", "a"] (by decide)

end GitDiff
